import Mathlib

/-!
Shallow embedding of github.com/sburnett/cube (emitter.go), a Go package that
periodically exports expvars to a Cube collector over HTTP.

Pure string formatting (the event serializer, Go `fmt.Sprintf` with `%q`/`%s`
verbs and `time.Time.Format time.ANSIC`) is embedded as Lean functions on
`String`/`List Char`; the effectful parts (`http.Post`, `log`, the tick loop in
`Run`) are embedded with explicit state passing: the HTTP client is an abstract
post function, and each call's observable effects (POSTs issued, log lines,
fatal exit) are collected in an explicit event trace.
-/

set_option maxHeartbeats 1000000

/-- Lowercase hexadecimal digits, Go's `lowerhex = "0123456789abcdef"` table
indexed by a value below 16. -/
def lowerHexDigit (n : Nat) : Char :=
  match n with
  | 0 => '0' | 1 => '1' | 2 => '2' | 3 => '3' | 4 => '4'
  | 5 => '5' | 6 => '6' | 7 => '7' | 8 => '8' | 9 => '9'
  | 10 => 'a' | 11 => 'b' | 12 => 'c' | 13 => 'd' | 14 => 'e' | 15 => 'f'
  | _ => '0'

/-- Escape one character the way Go's `strconv.Quote` (the `%q` verb) does:
a double quote or backslash is backslash-escaped, printable ASCII is kept
verbatim, the seven named control escapes are used where they apply, and any
other character below 0x20 (or DEL) becomes a `\xhh` escape.  Characters at
or above 0x80 are kept verbatim; this models `unicode.IsPrint` as true there,
which agrees with Go on printable non-ASCII text (expvar keys in practice are
printable identifiers). -/
def quoteChar (c : Char) : List Char :=
  if c = '\"' ∨ c = '\\' then ['\\', c]
  else if 0x20 ≤ c.toNat ∧ c.toNat < 0x7f then [c]
  else if c.toNat = 7 then ['\\', 'a']
  else if c.toNat = 8 then ['\\', 'b']
  else if c.toNat = 12 then ['\\', 'f']
  else if c.toNat = 10 then ['\\', 'n']
  else if c.toNat = 13 then ['\\', 'r']
  else if c.toNat = 9 then ['\\', 't']
  else if c.toNat = 11 then ['\\', 'v']
  else if c.toNat < 0x20 ∨ c.toNat = 0x7f then
    ['\\', 'x', lowerHexDigit (c.toNat / 16), lowerHexDigit (c.toNat % 16)]
  else [c]

/-- Go's `fmt.Sprintf "%q"` applied to a string: a double-quoted, escaped
representation of the string. -/
def goQuote (s : String) : String :=
  String.mk ('\"' :: s.data.flatMap quoteChar ++ ['\"'])

/-- Value of a hexadecimal digit character (lowercase letters), used to read
back a `\xhh` escape. -/
def hexVal (c : Char) : Option Nat :=
  if 48 ≤ c.toNat ∧ c.toNat ≤ 57 then some (c.toNat - 48)
  else if 97 ≤ c.toNat ∧ c.toNat ≤ 102 then some (c.toNat - 87)
  else none

/-- Decode the body of a Go double-quoted string: characters up to the closing
double quote, which must end the input.  Inverse of the escaping performed by
`quoteChar`; returns `none` on a malformed body. -/
def unquoteChars : List Char → Option (List Char)
  | [] => none
  | c :: rest =>
    if c = '\"' then if rest = [] then some [] else none
    else if c = '\\' then
      match rest with
      | [] => none
      | e :: rest2 =>
        if e = '\"' ∨ e = '\\' then (unquoteChars rest2).map (e :: ·)
        else if e = 'a' then (unquoteChars rest2).map (Char.ofNat 7 :: ·)
        else if e = 'b' then (unquoteChars rest2).map (Char.ofNat 8 :: ·)
        else if e = 'f' then (unquoteChars rest2).map (Char.ofNat 12 :: ·)
        else if e = 'n' then (unquoteChars rest2).map (Char.ofNat 10 :: ·)
        else if e = 'r' then (unquoteChars rest2).map (Char.ofNat 13 :: ·)
        else if e = 't' then (unquoteChars rest2).map (Char.ofNat 9 :: ·)
        else if e = 'v' then (unquoteChars rest2).map (Char.ofNat 11 :: ·)
        else if e = 'x' then
          match rest2 with
          | h1 :: h2 :: rest3 =>
            match hexVal h1, hexVal h2 with
            | some a, some b => (unquoteChars rest3).map (Char.ofNat (16 * a + b) :: ·)
            | _, _ => none
          | _ => none
        else none
    else (unquoteChars rest).map (c :: ·)

/-- Decode a full Go double-quoted string literal back to the string it
denotes. -/
def goUnquote (s : String) : Option String :=
  match s.data with
  | '\"' :: rest => (unquoteChars rest).map String.mk
  | _ => none

/-- Decimal digit character of `n mod 10`, Go's zero-padded digit printing. -/
def decDigit (n : Nat) : Char :=
  match n % 10 with
  | 0 => '0' | 1 => '1' | 2 => '2' | 3 => '3' | 4 => '4'
  | 5 => '5' | 6 => '6' | 7 => '7' | 8 => '8' | _ => '9'

/-- Two-digit zero-padded rendering, the `15`, `04`, `05` verbs of a Go time
layout (the argument is below 100 for all clock fields). -/
def pad2 (n : Nat) : List Char :=
  [decDigit (n / 10), decDigit n]

/-- Day of month under the `_2` verb of a Go time layout: space-padded to
width two. -/
def dayChars (day : Nat) : List Char :=
  if day < 10 then [' ', decDigit day] else [decDigit (day / 10), decDigit day]

/-- Four-digit zero-padded year, the `2006` verb of a Go time layout for years
up to 9999 (the range relevant to wall-clock exports). -/
def yearChars (year : Nat) : List Char :=
  [decDigit (year / 1000), decDigit (year / 100), decDigit (year / 10), decDigit year]

/-- Three-letter English weekday abbreviation used by Go time layouts,
independent of any locale; weekday 0 is Sunday.  Out-of-range values cannot be
produced by Go's clock and map to the empty string. -/
def weekdayName : Nat → String
  | 0 => "Sun" | 1 => "Mon" | 2 => "Tue" | 3 => "Wed"
  | 4 => "Thu" | 5 => "Fri" | 6 => "Sat" | _ => ""

/-- Three-letter English month abbreviation used by Go time layouts,
independent of any locale; months are numbered from 1 as in Go.  Out-of-range
values cannot be produced by Go's clock and map to the empty string. -/
def monthName : Nat → String
  | 1 => "Jan" | 2 => "Feb" | 3 => "Mar" | 4 => "Apr"
  | 5 => "May" | 6 => "Jun" | 7 => "Jul" | 8 => "Aug"
  | 9 => "Sep" | 10 => "Oct" | 11 => "Nov" | 12 => "Dec" | _ => ""

/-- Broken-down wall-clock instant, the fields of a Go `time.Time` that the
`time.ANSIC` layout consumes.  `weekday` is 0 for Sunday through 6 for
Saturday. -/
structure GoTime where
  year : Nat
  month : Nat
  day : Nat
  hour : Nat
  minute : Nat
  second : Nat
  weekday : Nat
deriving DecidableEq, Repr

/-- Go `timestamp.Format time.ANSIC` with layout `Mon Jan _2 15:04:05 2006`:
weekday name, month name, space-padded day, zero-padded clock, four-digit
year, all in fixed English text with no locale dependence. -/
def formatANSIC (t : GoTime) : String :=
  String.mk ((weekdayName t.weekday).data ++ ' ' :: (monthName t.month).data
    ++ ' ' :: dayChars t.day ++ ' ' :: pad2 t.hour ++ ':' :: pad2 t.minute
    ++ ':' :: pad2 t.second ++ ' ' :: yearChars t.year)

/-- Format one expvar registry entry for the `data` object:
Go `fmt.Sprintf "%q: %s"` applied to the variable's name and its raw value
string — the name is Go-quoted, the value is spliced verbatim. -/
def formatVariable (entry : String × String) : String :=
  goQuote entry.1 ++ ": " ++ entry.2

/-- The serialized event: Go `fmt.Sprintf` applied to the raw-string template
in `ExportVariablesWithTimestamp`, whose literal text is
`[\n\t\t{\n\t\t\t"type": "%s",\n\t\t\t"time": "%s",\n\t\t\t"data": { %s }\n\t\t}\n\t\t]`,
with the collection type, the formatted timestamp, and
`strings.Join variables ","` spliced in. -/
def buildRequest (collectionType timeString : String) (vars : List String) : String :=
  "[\n\t\t\x7b\n\t\t\t\"type\": \"" ++ collectionType
    ++ "\",\n\t\t\t\"time\": \"" ++ timeString
    ++ "\",\n\t\t\t\"data\": \x7b " ++ String.intercalate "," vars
    ++ " \x7d\n\t\t\x7d\n\t\t]"

/-- HTTP response as seen by `http.Post`: a status code and a body.  The
emitter never reads either field. -/
structure Response where
  statusCode : Nat
  body : String
deriving DecidableEq, Repr

/-- Opaque Go `error` value as rendered by `%v`, returned by `http.Post` on a
connection-level failure (connection refused, DNS failure, timeout). -/
structure GoError where
  msg : String
deriving DecidableEq, Repr

/-- Abstract HTTP client: `http.Post url contentType body`, either a response
(whatever its status code) or a connection-level error. -/
def PostFn : Type := String → String → String → Except GoError Response

/-- Observable outcome of one `ExportVariablesWithTimestamp` call: the Go
return value (`none` models the Go `nil` error), the request string that was
built, the POSTs issued, and the `log.Printf` lines written. -/
structure ExportOutcome where
  result : Option GoError
  request : String
  posts : List (String × String × String)
  logLines : List String
deriving DecidableEq, Repr

/-- Embedding of `ExportVariablesWithTimestamp`: build one formatted string
per registry entry (in `expvar.Do` iteration order, which the registry
argument fixes), build the request from the template, POST it, and on a
connection-level error log the error and the attempted request and return the
error; otherwise return `nil` (the response body is closed and discarded, its
status code never inspected). -/
def exportVariablesWithTimestamp (post : PostFn)
    (registry : List (String × String))
    (collectionType putUrl : String) (timestamp : GoTime) : ExportOutcome :=
  let vars := registry.map formatVariable
  let request := buildRequest collectionType (formatANSIC timestamp) vars
  match post putUrl "application/json" request with
  | .error e =>
    { result := some e
      request := request
      posts := [(putUrl, "application/json", request)]
      logLines := ["Error POSTing events to Cube collector: " ++ e.msg,
                   "The request we tried to post: " ++ request] }
  | .ok _ =>
    { result := none
      request := request
      posts := [(putUrl, "application/json", request)]
      logLines := [] }

/-- Embedding of `ExportVariables`: delegate to
`ExportVariablesWithTimestamp` with the current system time, which the
embedding passes explicitly as `now`. -/
def exportVariables (post : PostFn) (registry : List (String × String))
    (collectionType putUrl : String) (now : GoTime) : ExportOutcome :=
  exportVariablesWithTimestamp post registry collectionType putUrl now

/-- Process state surrounding one export call: the expvar registry, the
`CubeExports` counter owned by `Run`, and the accumulated POST and log
traces. -/
structure World where
  registry : List (String × String)
  exportCounter : Int
  posts : List (String × String × String)
  logLines : List String
deriving DecidableEq, Repr

/-- One-shot export as a state transformer over `World`: exactly what
`ExportVariablesWithTimestamp` does to the process state — it reads the
registry, appends its POST and log lines to the traces, and returns its
result. -/
def exportOnce (post : PostFn) (collectionType putUrl : String)
    (timestamp : GoTime) (w : World) : World × Option GoError :=
  let o := exportVariablesWithTimestamp post w.registry collectionType putUrl timestamp
  ({ w with posts := w.posts ++ o.posts, logLines := w.logLines ++ o.logLines },
   o.result)

/-- Externally observable events of `Run`: log lines, HTTP POSTs, and the
process-terminating `log.Fatalf`. -/
inductive RunEvent
  | logLine (line : String)
  | httpPost (url contentType body : String)
  | fatalExit (message : String)
deriving DecidableEq, Repr

/-- Whether a run event is an HTTP POST. -/
def isHttpPost : RunEvent → Bool
  | .httpPost _ _ _ => true
  | _ => false

/-- Whether a run event is the fatal configuration exit. -/
def isFatalExit : RunEvent → Bool
  | .fatalExit _ => true
  | _ => false

/-- Number of HTTP POSTs in a run trace. -/
def countPosts (events : List RunEvent) : Nat :=
  events.countP isHttpPost

/-- Whether a run trace contains the fatal configuration exit. -/
def hasFatal (events : List RunEvent) : Bool :=
  events.any isFatalExit

/-- Events of one export call, in order: the POST it issues, then its log
lines. -/
def outcomeEvents (o : ExportOutcome) : List RunEvent :=
  o.posts.map (fun p => RunEvent.httpPost p.1 p.2.1 p.2.2)
    ++ o.logLines.map RunEvent.logLine

/-- Go's default `%v` rendering of a `time.Time`, restricted to the fields
this embedding models (year-month-day clock); the zone and nanosecond parts of
the real rendering have no counterpart in `GoTime`.  Only used for the text of
one log line, which no property inspects. -/
def goTimeString (t : GoTime) : String :=
  String.mk (yearChars t.year ++ '-' :: pad2 t.month ++ '-' :: pad2 t.day
    ++ ' ' :: pad2 t.hour ++ ':' :: pad2 t.minute ++ ':' :: pad2 t.second)

/-- The `for now := range time.Tick interval` loop of `Run`, unrolled for a
given number of ticks (the loop itself never exits; a theorem about `n` ticks
speaks about the first `n` iterations).  Tick `i` draws the registry contents,
the tick time, and the HTTP behaviour from oracles indexed by `i`, performs
one export, logs `Error exporting variables for ...` if the export returned an
error, and then adds 1 to the `CubeExports` counter unconditionally.  Returns
the event trace of the ticks together with the final counter value. -/
def runLoop (post : Nat → PostFn) (registryAt : Nat → List (String × String))
    (tickTime : Nat → GoTime) (collectionType putUrl : String) :
    Nat → Int → Nat → List RunEvent × Int
  | _, counter, 0 => ([], counter)
  | i, counter, remaining + 1 =>
    let o := exportVariablesWithTimestamp (post i) (registryAt i) collectionType
      putUrl (tickTime i)
    let tickEvents := outcomeEvents o ++
      (if o.result.isSome then
        [RunEvent.logLine ("Error exporting variables for " ++ goTimeString (tickTime i))]
      else [])
    let next := runLoop post registryAt tickTime collectionType putUrl (i + 1)
      (counter + 1) remaining
    (tickEvents ++ next.1, next.2)

/-- Whether a character is an ASCII decimal digit, the `0 <= c && c <= 9`
tests of Go's duration parser. -/
def isDigitChar (c : Char) : Bool :=
  48 ≤ c.toNat && c.toNat ≤ 57

/-- Nanoseconds per unit, Go's `unitMap` in `time.ParseDuration`. -/
def unitNanos : String → Option Nat
  | "ns" => some 1
  | "us" => some 1000
  | "µs" => some 1000
  | "μs" => some 1000
  | "ms" => some 1000000
  | "s" => some 1000000000
  | "m" => some 60000000000
  | "h" => some 3600000000000
  | _ => none

/-- Go `leadingInt`: consume leading decimal digits into an accumulator,
failing on overflow past `2^63` as the original does on its `uint64`. -/
def leadingIntAux (x : Nat) : List Char → Option (Nat × List Char)
  | [] => some (x, [])
  | c :: rest =>
    if isDigitChar c then
      if x > (2 ^ 63 - 1) / 10 then none
      else
        let y := x * 10 + (c.toNat - 48)
        if y > 2 ^ 63 then none
        else leadingIntAux y rest
    else some (x, c :: rest)

/-- Go `leadingFraction`: consume digits after the decimal point into a value
and a scale, silently stopping accumulation (but not consumption) once the
value would overflow. -/
def leadingFractionAux (x scale : Nat) (overflow : Bool) :
    List Char → Nat × Nat × List Char
  | [] => (x, scale, [])
  | c :: rest =>
    if isDigitChar c then
      if overflow then leadingFractionAux x scale true rest
      else if x > (2 ^ 63 - 1) / 10 then leadingFractionAux x scale true rest
      else
        let y := x * 10 + (c.toNat - 48)
        if y > 2 ^ 63 then leadingFractionAux x scale true rest
        else leadingFractionAux y (scale * 10) false rest
    else (x, scale, c :: rest)

/-- Main loop of Go `time.ParseDuration`: repeatedly read an optional integer
part, an optional fraction, and a mandatory known unit, accumulating
nanoseconds; any violation is a parse error.  The fractional contribution
`f * unit / scale` renders Go's float64 expression
`uint64(float64(f) * (float64(unit) / scale))` in integer arithmetic.  The
fuel argument only bounds recursion; each successful iteration consumes at
least the one-character unit, so `length + 1` fuel is never exhausted. -/
def parseLoop : Nat → Nat → List Char → Option Nat
  | 0, _, _ => none
  | _ + 1, d, [] => some d
  | fuel + 1, d, c0 :: s0 =>
    if ¬ (c0 = '.' ∨ isDigitChar c0) then none
    else
      match leadingIntAux 0 (c0 :: s0) with
      | none => none
      | some (v, s1) =>
        let pre := s1.length != (c0 :: s0).length
        let fps :=
          match s1 with
          | '.' :: afterDot =>
            let fsr := leadingFractionAux 0 1 false afterDot
            (fsr.1, fsr.2.1, fsr.2.2, fsr.2.2.length != afterDot.length)
          | _ => (0, 1, s1, false)
        let f := fps.1
        let scale := fps.2.1
        let s2 := fps.2.2.1
        let post := fps.2.2.2
        if !pre && !post then none
        else
          let u := s2.takeWhile (fun c => ¬ (c = '.' ∨ isDigitChar c))
          let s3 := s2.dropWhile (fun c => ¬ (c = '.' ∨ isDigitChar c))
          if u = [] then none
          else
            match unitNanos (String.mk u) with
            | none => none
            | some unit =>
              if v > 2 ^ 63 / unit then none
              else
                let v2 := v * unit + (if f > 0 then f * unit / scale else 0)
                if v2 > 2 ^ 63 then none
                else if d + v2 > 2 ^ 63 then none
                else parseLoop fuel (d + v2) s3

/-- Embedding of Go `time.ParseDuration` (units in nanoseconds, result as a
mathematical integer standing for the `int64` `time.Duration`): optional sign,
the special case `"0"`, then the term loop; the final value must fit in
`int64`. -/
def parseDuration (s : String) : Option Int :=
  let chars := s.data
  let sr :=
    match chars with
    | c :: cs =>
      if c = '-' then (true, cs)
      else if c = '+' then (false, cs)
      else (false, chars)
    | [] => (false, chars)
  let neg := sr.1
  let rest := sr.2
  if rest = ['0'] then some 0
  else if rest = [] then none
  else
    match parseLoop (rest.length + 1) 0 rest with
    | none => none
    | some d =>
      if neg then some (-(Int.ofNat d))
      else if d > 2 ^ 63 - 1 then none
      else some (Int.ofNat d)

/-- The four package flags of the emitter, with the values they hold when
`Run` starts (Go reads them inside `Run`, after `flag.Parse`). -/
structure Flags where
  collectorHost : String
  collectorPort : Int
  exportInterval : String
  exportToCube : Bool
deriving DecidableEq, Repr

/-- Default flag values registered in the package's `init`. -/
def defaultFlags : Flags :=
  { collectorHost := "localhost"
    collectorPort := 1080
    exportInterval := "10s"
    exportToCube := true }

/-- The collector URL `Run` builds:
`fmt.Sprintf "http://%s:%d/1.0/event/put"` over the host and port flags. -/
def collectorPutUrl (flags : Flags) : String :=
  "http://" ++ flags.collectorHost ++ ":" ++ toString flags.collectorPort
    ++ "/1.0/event/put"

/-- Embedding of `Run`, observed for `numTicks` ticks: if the export flag is
off, return at once with no events; otherwise build the put URL, log the
startup line, parse the interval flag — a parse failure is `log.Fatalf`, which
ends the process before any tick — then create the `CubeExports` counter at 0
and enter the tick loop.  Returns the event trace together with the final
counter value.  The `%v` renderings inside the two startup log lines and the
fatal message are carried as the underlying flag text, which no property
inspects. -/
def runModel (flags : Flags) (collectionType : String) (post : Nat → PostFn)
    (registryAt : Nat → List (String × String)) (tickTime : Nat → GoTime)
    (numTicks : Nat) : List RunEvent × Int :=
  if !flags.exportToCube then ([], 0)
  else
    let putUrl := collectorPutUrl flags
    let startLog := RunEvent.logLine ("Exporting expvars to " ++ putUrl
      ++ " with event type " ++ collectionType)
    match parseDuration flags.exportInterval with
    | none =>
      ([startLog,
        RunEvent.fatalExit ("Error parsing duration " ++ flags.exportInterval)], 0)
    | some interval =>
      let intervalLog := RunEvent.logLine ("Exporting variables every "
        ++ toString interval ++ "ns")
      let loop := runLoop post registryAt tickTime collectionType putUrl 0 0 numTicks
      (startLog :: intervalLog :: loop.1, loop.2)

/-! Concrete fixtures used by witnesses and counterexamples. -/

/-- Transport that always fails at the connection level with a fixed error,
before any response exists. -/
def failingPost (message : String) : PostFn :=
  fun _ _ _ => .error { msg := message }

/-- Transport that always receives a response with the given status code. -/
def okPost (code : Nat) : PostFn :=
  fun _ _ _ => .ok { statusCode := code, body := "" }

/-- A fixed instant: Sunday, February 3, 2013, 07:04:05. -/
def sampleTime : GoTime :=
  { year := 2013, month := 2, day := 3, hour := 7, minute := 4, second := 5,
    weekday := 0 }

/-- The put URL for the default host and port. -/
def sampleUrl : String := "http://localhost:1080/1.0/event/put"

/-- A one-variable registry. -/
def reg1 : List (String × String) := [("requests", "1")]

/-- A registry differing from `reg1` only in the variable's value, so the two
build different payloads. -/
def reg2 : List (String × String) := [("requests", "2")]

/-- Per-tick oracles that never vary: failing transport, empty registry,
fixed tick time. -/
def constPost : Nat → PostFn := fun _ => failingPost "connection refused"

/-- Constant empty registry oracle. -/
def constReg : Nat → List (String × String) := fun _ => []

/-- Constant tick-time oracle. -/
def constTick : Nat → GoTime := fun _ => sampleTime

/-- JSON insignificant whitespace (RFC 8259: space, tab, line feed, carriage
return). -/
def isJsonWhitespaceChar (c : Char) : Bool :=
  c == ' ' || c == '\t' || c == '\n' || c == '\r'

/-- Whether a string is a JSON empty object: an opening brace, insignificant
whitespace only, and a closing brace. -/
def isEmptyJsonObject (s : String) : Bool :=
  match s.data with
  | [] => false
  | c :: rest =>
    c == '\x7b' && rest.dropLast.all isJsonWhitespaceChar
      && (rest.getLast? == some '\x7d')

/-- A registry of two distinct variables, used by witnesses. -/
def sampleRegistry : List (String × String) :=
  [("requests", "1"), ("errors", "2")]

/-- Character-level checker for the fixed `time.ANSIC` textual format
`Mon Jan _2 15:04:05 2006`: exactly 24 characters — three letters, space,
three letters, space, a space-or-digit then a digit, space, a colon-separated
six-digit clock, space, four year digits. -/
def ansicShapeChars : List Char → Bool
  | [w1, w2, w3, sp1, m1, m2, m3, sp2, d1, d2, sp3,
     h1, h2, co1, n1, n2, co2, s1, s2, sp4, y1, y2, y3, y4] =>
    w1.isAlpha && w2.isAlpha && w3.isAlpha && sp1 == ' ' &&
    m1.isAlpha && m2.isAlpha && m3.isAlpha && sp2 == ' ' &&
    (d1 == ' ' || d1.isDigit) && d2.isDigit && sp3 == ' ' &&
    h1.isDigit && h2.isDigit && co1 == ':' &&
    n1.isDigit && n2.isDigit && co2 == ':' &&
    s1.isDigit && s2.isDigit && sp4 == ' ' &&
    y1.isDigit && y2.isDigit && y3.isDigit && y4.isDigit
  | _ => false

/-- Whether a string has the `time.ANSIC` layout's shape. -/
def ansicShape (s : String) : Bool := ansicShapeChars s.data

/-! Helper lemmas: the Go quoting of a string decodes back to exactly that
string, so the quoted keys of the `data` object denote the original variable
names. -/

/-- Two characters with the same code point are equal. -/
theorem char_eq_of_toNat_eq {a b : Char} (h : a.toNat = b.toNat) : a = b := by
  cases a; cases b
  simp only [Char.toNat] at h
  congr 1
  exact UInt32.toNat.inj h

/-- Code point of `Char.ofNat` below the surrogate range. -/
theorem toNat_charOfNat {n : Nat} (h : n < 0xd800) : (Char.ofNat n).toNat = n := by
  have hv : n.isValidChar := Or.inl h
  simp [Char.ofNat, hv, Char.ofNatAux, Char.toNat, UInt32.toNat]

/-- Reading back a lowercase hex digit gives the value it encodes. -/
theorem hexVal_lowerHexDigit {n : Nat} (h : n < 16) : hexVal (lowerHexDigit n) = some n := by
  interval_cases n <;> rfl

/-- Unquoting step for a verbatim (unescaped) character. -/
theorem unquoteChars_cons_plain (c : Char) (r : List Char) (hc1 : c ≠ '\"')
    (hc2 : c ≠ '\\') : unquoteChars (c :: r) = (unquoteChars r).map (c :: ·) := by
  rw [unquoteChars.eq_def]
  rcases r with _ | ⟨e, rest⟩ <;> simp [hc1, hc2]

/-- Unquoting step for an escaped quote or backslash. -/
theorem unquoteChars_escape_self (e : Char) (r : List Char)
    (he : e = '\"' ∨ e = '\\') :
    unquoteChars ('\\' :: e :: r) = (unquoteChars r).map (e :: ·) := by
  rw [unquoteChars.eq_def]
  simp +decide [he]

/-- Unquoting step for the seven named control escapes. -/
theorem unquoteChars_escape_named (e : Char) (k : Nat) (r : List Char)
    (hek : (e, k) = ('a', 7) ∨ (e, k) = ('b', 8) ∨ (e, k) = ('f', 12) ∨
      (e, k) = ('n', 10) ∨ (e, k) = ('r', 13) ∨ (e, k) = ('t', 9) ∨
      (e, k) = ('v', 11)) :
    unquoteChars ('\\' :: e :: r) = (unquoteChars r).map (Char.ofNat k :: ·) := by
  rcases hek with h | h | h | h | h | h | h <;>
    (obtain ⟨rfl, rfl⟩ := Prod.mk.injEq .. ▸ h) <;>
    (rw [unquoteChars.eq_def]; simp +decide)

/-- Unquoting step for a hexadecimal escape. -/
theorem unquoteChars_escape_x (d1 d2 : Char) (a b : Nat) (r : List Char)
    (ha : hexVal d1 = some a) (hb : hexVal d2 = some b) :
    unquoteChars ('\\' :: 'x' :: d1 :: d2 :: r) =
      (unquoteChars r).map (Char.ofNat (16 * a + b) :: ·) := by
  rw [unquoteChars.eq_def]
  simp +decide [ha, hb]

/-- Round trip: decoding the escaped body of a Go-quoted string (followed by
its closing quote) recovers the original characters. -/
theorem unquoteChars_quote (l : List Char) :
    unquoteChars (l.flatMap quoteChar ++ ['\"']) = some l := by
  induction l with
  | nil => rfl
  | cons c l ih =>
    rw [List.flatMap_cons, List.append_assoc]
    by_cases h1 : c = '\"' ∨ c = '\\'
    · rw [show quoteChar c = ['\\', c] by rw [quoteChar]; simp [h1]]
      rw [List.cons_append, List.cons_append, List.nil_append,
        unquoteChars_escape_self c _ h1, ih]
      rfl
    · have hc1 : c ≠ '\"' := fun h => h1 (Or.inl h)
      have hc2 : c ≠ '\\' := fun h => h1 (Or.inr h)
      by_cases h2 : 0x20 ≤ c.toNat ∧ c.toNat < 0x7f
      · rw [show quoteChar c = [c] by rw [quoteChar]; simp [h1, h2]]
        rw [List.cons_append, List.nil_append,
          unquoteChars_cons_plain c _ hc1 hc2, ih]
        rfl
      · have hcover : c.toNat = 7 ∨ c.toNat = 8 ∨ c.toNat = 12 ∨ c.toNat = 10 ∨
            c.toNat = 13 ∨ c.toNat = 9 ∨ c.toNat = 11 ∨
            (c.toNat < 0x20 ∧ c.toNat ≠ 7 ∧ c.toNat ≠ 8 ∧ c.toNat ≠ 12 ∧
              c.toNat ≠ 10 ∧ c.toNat ≠ 13 ∧ c.toNat ≠ 9 ∧ c.toNat ≠ 11) ∨
            c.toNat = 0x7f ∨ 0x80 ≤ c.toNat := by omega
        rcases hcover with hk | hk | hk | hk | hk | hk | hk | hk | hk | hk
        · rw [show quoteChar c = ['\\', 'a'] by rw [quoteChar]; simp +decide [h1, h2, hk]]
          rw [List.cons_append, List.cons_append, List.nil_append,
            unquoteChars_escape_named 'a' 7 _ (by simp), ih]
          have hc : Char.ofNat 7 = c :=
            char_eq_of_toNat_eq (by rw [toNat_charOfNat (by decide)]; omega)
          rw [hc]
          rfl
        · rw [show quoteChar c = ['\\', 'b'] by rw [quoteChar]; simp +decide [h1, h2, hk]]
          rw [List.cons_append, List.cons_append, List.nil_append,
            unquoteChars_escape_named 'b' 8 _ (by simp), ih]
          have hc : Char.ofNat 8 = c :=
            char_eq_of_toNat_eq (by rw [toNat_charOfNat (by decide)]; omega)
          rw [hc]
          rfl
        · rw [show quoteChar c = ['\\', 'f'] by rw [quoteChar]; simp +decide [h1, h2, hk]]
          rw [List.cons_append, List.cons_append, List.nil_append,
            unquoteChars_escape_named 'f' 12 _ (by simp), ih]
          have hc : Char.ofNat 12 = c :=
            char_eq_of_toNat_eq (by rw [toNat_charOfNat (by decide)]; omega)
          rw [hc]
          rfl
        · rw [show quoteChar c = ['\\', 'n'] by rw [quoteChar]; simp +decide [h1, h2, hk]]
          rw [List.cons_append, List.cons_append, List.nil_append,
            unquoteChars_escape_named 'n' 10 _ (by simp), ih]
          have hc : Char.ofNat 10 = c :=
            char_eq_of_toNat_eq (by rw [toNat_charOfNat (by decide)]; omega)
          rw [hc]
          rfl
        · rw [show quoteChar c = ['\\', 'r'] by rw [quoteChar]; simp +decide [h1, h2, hk]]
          rw [List.cons_append, List.cons_append, List.nil_append,
            unquoteChars_escape_named 'r' 13 _ (by simp), ih]
          have hc : Char.ofNat 13 = c :=
            char_eq_of_toNat_eq (by rw [toNat_charOfNat (by decide)]; omega)
          rw [hc]
          rfl
        · rw [show quoteChar c = ['\\', 't'] by rw [quoteChar]; simp +decide [h1, h2, hk]]
          rw [List.cons_append, List.cons_append, List.nil_append,
            unquoteChars_escape_named 't' 9 _ (by simp), ih]
          have hc : Char.ofNat 9 = c :=
            char_eq_of_toNat_eq (by rw [toNat_charOfNat (by decide)]; omega)
          rw [hc]
          rfl
        · rw [show quoteChar c = ['\\', 'v'] by rw [quoteChar]; simp +decide [h1, h2, hk]]
          rw [List.cons_append, List.cons_append, List.nil_append,
            unquoteChars_escape_named 'v' 11 _ (by simp), ih]
          have hc : Char.ofNat 11 = c :=
            char_eq_of_toNat_eq (by rw [toNat_charOfNat (by decide)]; omega)
          rw [hc]
          rfl
        · obtain ⟨hlt, hn7, hn8, hn12, hn10, hn13, hn9, hn11⟩ := hk
          rw [show quoteChar c = ['\\', 'x', lowerHexDigit (c.toNat / 16),
              lowerHexDigit (c.toNat % 16)] by
            rw [quoteChar]; simp [h1, h2, hn7, hn8, hn12, hn10, hn13, hn9, hn11, Or.inl hlt]]
          rw [List.cons_append, List.cons_append, List.cons_append, List.cons_append,
            List.nil_append,
            unquoteChars_escape_x _ _ _ _ _ (hexVal_lowerHexDigit (by omega))
              (hexVal_lowerHexDigit (by omega)), ih]
          have h16 : 16 * (c.toNat / 16) + c.toNat % 16 = c.toNat := by omega
          rw [h16]
          have hc : Char.ofNat c.toNat = c :=
            char_eq_of_toNat_eq (by rw [toNat_charOfNat (by omega)])
          rw [hc]
          rfl
        · rw [show quoteChar c = ['\\', 'x', lowerHexDigit (c.toNat / 16),
              lowerHexDigit (c.toNat % 16)] by
            rw [quoteChar]; simp +decide [h1, h2, hk]]
          rw [List.cons_append, List.cons_append, List.cons_append, List.cons_append,
            List.nil_append,
            unquoteChars_escape_x _ _ _ _ _ (hexVal_lowerHexDigit (by omega))
              (hexVal_lowerHexDigit (by omega)), ih]
          have h16 : 16 * (c.toNat / 16) + c.toNat % 16 = c.toNat := by omega
          rw [h16]
          have hc : Char.ofNat c.toNat = c :=
            char_eq_of_toNat_eq (by rw [toNat_charOfNat (by omega)])
          rw [hc]
          rfl
        · rw [show quoteChar c = [c] by
            rw [quoteChar]
            simp [h1, h2, show c.toNat ≠ 7 by omega, show c.toNat ≠ 8 by omega,
              show c.toNat ≠ 12 by omega, show c.toNat ≠ 10 by omega,
              show c.toNat ≠ 13 by omega, show c.toNat ≠ 9 by omega,
              show c.toNat ≠ 11 by omega, show ¬(c.toNat < 0x20 ∨ c.toNat = 0x7f) by omega]]
          rw [List.cons_append, List.nil_append,
            unquoteChars_cons_plain c _ hc1 hc2, ih]
          rfl

/-- Round trip at the string level: `goUnquote` recovers the string that
`goQuote` quoted, for every string.  In particular `goQuote` is injective. -/
theorem goUnquote_goQuote (s : String) : goUnquote (goQuote s) = some s := by
  cases s with
  | mk l => simp [goQuote, goUnquote, unquoteChars_quote]

/-- Go quoting is injective: distinct names have distinct quoted keys. -/
theorem goQuote_injective : Function.Injective goQuote := by
  intro a b h
  have ha := goUnquote_goQuote a
  rw [h, goUnquote_goQuote b] at ha
  exact (Option.some.injEq ..▸ ha).symm ▸ rfl

/-- The request a single export builds, whatever the transport does. -/
theorem export_request (post : PostFn) (registry : List (String × String))
    (collectionType putUrl : String) (timestamp : GoTime) :
    (exportVariablesWithTimestamp post registry collectionType putUrl timestamp).request
      = buildRequest collectionType (formatANSIC timestamp)
          (registry.map formatVariable) := by
  cases hp : post putUrl "application/json"
    (buildRequest collectionType (formatANSIC timestamp) (registry.map formatVariable)) <;>
    simp [exportVariablesWithTimestamp, hp]

/-- A single export issues exactly one POST: its own request, as JSON, to the
put URL, whether or not the transport fails. -/
theorem export_posts (post : PostFn) (registry : List (String × String))
    (collectionType putUrl : String) (timestamp : GoTime) :
    (exportVariablesWithTimestamp post registry collectionType putUrl timestamp).posts
      = [(putUrl, "application/json",
          (exportVariablesWithTimestamp post registry collectionType putUrl timestamp).request)] := by
  cases hp : post putUrl "application/json"
    (buildRequest collectionType (formatANSIC timestamp) (registry.map formatVariable)) <;>
    simp [exportVariablesWithTimestamp, hp]

/-- C9: for every collection type and URL, `ExportVariables collectionType
putUrl` is exactly `ExportVariablesWithTimestamp collectionType putUrl t`
with `t` the current system time at the moment of the call (passed explicitly
to the embedding): the two entry points are equivalent except for who
supplies the timestamp. -/
theorem c9_exportVariables_delegates (post : PostFn)
    (registry : List (String × String)) (collectionType putUrl : String)
    (now : GoTime) :
    exportVariables post registry collectionType putUrl now
      = exportVariablesWithTimestamp post registry collectionType putUrl now := rfl

/-- C2: the Transport send returns an error exactly when the HTTP POST itself
fails at the connection level; whenever any response is received — whatever
its HTTP status code, which is never inspected — it returns success. -/
theorem c2_error_iff_connection_failure (post : PostFn)
    (registry : List (String × String)) (collectionType putUrl : String)
    (timestamp : GoTime) :
    ((exportVariablesWithTimestamp post registry collectionType putUrl timestamp).result = none
      ↔ ∃ r : Response, post putUrl "application/json"
          (exportVariablesWithTimestamp post registry collectionType putUrl timestamp).request
            = .ok r) ∧
    (∀ e : GoError,
      (exportVariablesWithTimestamp post registry collectionType putUrl timestamp).result = some e
      ↔ post putUrl "application/json"
          (exportVariablesWithTimestamp post registry collectionType putUrl timestamp).request
            = .error e) := by
  cases hp : post putUrl "application/json"
    (buildRequest collectionType (formatANSIC timestamp) (registry.map formatVariable)) <;>
    simp [exportVariablesWithTimestamp, hp]

/-- Witness for C2 at concrete inputs: a received 500 response still counts
as success. -/
theorem c2_witness :
    (exportVariablesWithTimestamp (okPost 500) reg1 "myevents" sampleUrl sampleTime).result
      = none :=
  (c2_error_iff_connection_failure (okPost 500) reg1 "myevents" sampleUrl sampleTime).1.mpr
    ⟨{ statusCode := 500, body := "" }, rfl⟩

/-- C8: a single-shot export leaves the periodic `CubeExports` counter
unchanged and does not mutate any variable in the monitored-variable
registry; its effect on the world is to append exactly its one POST (and its
error log lines, on failure) to the traces. -/
theorem c8_export_frame (post : PostFn) (collectionType putUrl : String)
    (timestamp : GoTime) (w : World) :
    (exportOnce post collectionType putUrl timestamp w).1.registry = w.registry ∧
    (exportOnce post collectionType putUrl timestamp w).1.exportCounter = w.exportCounter ∧
    (exportOnce post collectionType putUrl timestamp w).1.posts
      = w.posts ++ [(putUrl, "application/json",
          (exportVariablesWithTimestamp post w.registry collectionType putUrl timestamp).request)] := by
  refine ⟨rfl, rfl, ?_⟩
  simp [exportOnce, export_posts]

/-- Counterexample for C4 as stated: on two failing invocations whose
attempted payloads differ, the returned error objects are identical (both are
just the transport's original error), so the error returned to the caller
cannot carry the outbound payload — the payload only reaches the log. -/
theorem c4_counterexample :
    (exportVariablesWithTimestamp (failingPost "connection refused") reg1
        "myevents" sampleUrl sampleTime).result
      = (exportVariablesWithTimestamp (failingPost "connection refused") reg2
          "myevents" sampleUrl sampleTime).result ∧
    (exportVariablesWithTimestamp (failingPost "connection refused") reg1
        "myevents" sampleUrl sampleTime).request
      ≠ (exportVariablesWithTimestamp (failingPost "connection refused") reg2
          "myevents" sampleUrl sampleTime).request ∧
    (exportVariablesWithTimestamp (failingPost "connection refused") reg1
        "myevents" sampleUrl sampleTime).result
      = some { msg := "connection refused" } := by
  refine ⟨rfl, ?_, rfl⟩
  decide

/-- C4 (amended): whenever the transport fails, the export returns the
transport's original error unchanged to the caller, and the attempted payload
is written to the log; this holds on every failing invocation.  The returned
error object itself does not carry the payload. -/
theorem c4_failure_returns_error_and_logs_payload (post : PostFn)
    (registry : List (String × String)) (collectionType putUrl : String)
    (timestamp : GoTime) (e : GoError)
    (hfail : post putUrl "application/json"
      (exportVariablesWithTimestamp post registry collectionType putUrl timestamp).request
        = .error e) :
    (exportVariablesWithTimestamp post registry collectionType putUrl timestamp).result
      = some e ∧
    ("The request we tried to post: "
        ++ (exportVariablesWithTimestamp post registry collectionType putUrl timestamp).request)
      ∈ (exportVariablesWithTimestamp post registry collectionType putUrl timestamp).logLines := by
  rw [export_request] at hfail
  simp [exportVariablesWithTimestamp, hfail, export_request]

/-- Witness for C4's amendment at a concrete failing transport. -/
theorem c4_witness :
    failingPost "connection refused" sampleUrl "application/json"
      (exportVariablesWithTimestamp (failingPost "connection refused") reg1
        "myevents" sampleUrl sampleTime).request = .error { msg := "connection refused" } ∧
    ((exportVariablesWithTimestamp (failingPost "connection refused") reg1
        "myevents" sampleUrl sampleTime).result = some { msg := "connection refused" } ∧
    ("The request we tried to post: "
        ++ (exportVariablesWithTimestamp (failingPost "connection refused") reg1
            "myevents" sampleUrl sampleTime).request)
      ∈ (exportVariablesWithTimestamp (failingPost "connection refused") reg1
          "myevents" sampleUrl sampleTime).logLines) :=
  ⟨rfl, c4_failure_returns_error_and_logs_payload (failingPost "connection refused")
    reg1 "myevents" sampleUrl sampleTime { msg := "connection refused" } rfl⟩

/-- C6: with the export-enable switch off, `Run` returns immediately: no
events at all — in particular zero HTTP POSTs — and the counter never moves. -/
theorem c6_disabled_run_is_noop (flags : Flags) (collectionType : String)
    (post : Nat → PostFn) (registryAt : Nat → List (String × String))
    (tickTime : Nat → GoTime) (numTicks : Nat)
    (hoff : flags.exportToCube = false) :
    runModel flags collectionType post registryAt tickTime numTicks = ([], 0) ∧
    countPosts (runModel flags collectionType post registryAt tickTime numTicks).1 = 0 := by
  simp [runModel, hoff, countPosts]

/-- Witness for C6 at the default flags with the switch off. -/
theorem c6_witness :
    runModel { defaultFlags with exportToCube := false } "myevents" constPost
        constReg constTick 5 = ([], 0) ∧
    countPosts (runModel { defaultFlags with exportToCube := false } "myevents"
        constPost constReg constTick 5).1 = 0 :=
  c6_disabled_run_is_noop _ "myevents" constPost constReg constTick 5 rfl

/-- C10: the disabled check precedes interval parsing, so with the switch off
a malformed interval string raises no fatal configuration error: `Run` still
returns immediately with an empty trace. -/
theorem c10_disabled_wins_over_bad_interval (flags : Flags)
    (collectionType : String) (post : Nat → PostFn)
    (registryAt : Nat → List (String × String)) (tickTime : Nat → GoTime)
    (numTicks : Nat)
    (hoff : flags.exportToCube = false)
    (hbad : parseDuration flags.exportInterval = none) :
    hasFatal (runModel flags collectionType post registryAt tickTime numTicks).1 = false ∧
    runModel flags collectionType post registryAt tickTime numTicks = ([], 0) := by
  simp [runModel, hoff, hasFatal]

/-- Witness for C10: switch off together with the unparsable interval
string `abc`. -/
theorem c10_witness :
    hasFatal (runModel { defaultFlags with exportToCube := false, exportInterval := "abc" }
        "myevents" constPost constReg constTick 5).1 = false ∧
    runModel { defaultFlags with exportToCube := false, exportInterval := "abc" }
        "myevents" constPost constReg constTick 5 = ([], 0) :=
  c10_disabled_wins_over_bad_interval _ "myevents" constPost constReg constTick 5
    rfl (by decide)

/-- C5: with the exporter enabled and an interval string that does not parse,
`Run` hits the fatal configuration exit before the loop: the trace contains
the fatal event and no HTTP POST, and the counter stays 0. -/
theorem c5_bad_interval_fatal_no_posts (flags : Flags) (collectionType : String)
    (post : Nat → PostFn) (registryAt : Nat → List (String × String))
    (tickTime : Nat → GoTime) (numTicks : Nat)
    (hon : flags.exportToCube = true)
    (hbad : parseDuration flags.exportInterval = none) :
    hasFatal (runModel flags collectionType post registryAt tickTime numTicks).1 = true ∧
    countPosts (runModel flags collectionType post registryAt tickTime numTicks).1 = 0 ∧
    (runModel flags collectionType post registryAt tickTime numTicks).2 = 0 := by
  simp [runModel, hon, hbad, hasFatal, countPosts, isFatalExit, isHttpPost]

/-- Witness for C5: default flags with the unparsable interval `abc`. -/
theorem c5_witness :
    hasFatal (runModel { defaultFlags with exportInterval := "abc" } "myevents"
        constPost constReg constTick 5).1 = true ∧
    countPosts (runModel { defaultFlags with exportInterval := "abc" } "myevents"
        constPost constReg constTick 5).1 = 0 ∧
    (runModel { defaultFlags with exportInterval := "abc" } "myevents"
        constPost constReg constTick 5).2 = 0 :=
  c5_bad_interval_fatal_no_posts _ "myevents" constPost constReg constTick 5
    rfl (by decide)

/-- C3: in the periodic loop the `CubeExports` counter is incremented exactly
once per tick, after that tick's export and regardless of whether its
transport call succeeded or failed (the statement quantifies over arbitrary
per-tick transport behaviour): after `n` ticks the counter has grown by
exactly `n`, and it is monotone in the number of ticks. -/
theorem c3_counter_once_per_tick (post : Nat → PostFn)
    (registryAt : Nat → List (String × String)) (tickTime : Nat → GoTime)
    (collectionType putUrl : String) (i : Nat) (counter : Int) (m n : Nat) :
    (runLoop post registryAt tickTime collectionType putUrl i counter n).2
      = counter + n ∧
    (m ≤ n →
      (runLoop post registryAt tickTime collectionType putUrl i counter m).2
        ≤ (runLoop post registryAt tickTime collectionType putUrl i counter n).2) := by
  have key : ∀ (k j : Nat) (c : Int),
      (runLoop post registryAt tickTime collectionType putUrl j c k).2 = c + k := by
    intro k
    induction k with
    | zero => intro j c; simp [runLoop]
    | succ k ih =>
      intro j c
      rw [show ((k : Nat) + 1 : Nat) = k + 1 from rfl]
      simp only [runLoop, ih]
      push_cast
      ring
  refine ⟨key n i counter, fun hmn => ?_⟩
  rw [key m i counter, key n i counter]
  omega

/-- Witness for C3: five ticks of an always-failing transport move the
counter from 0 to 5, and three ticks stay at or below five ticks. -/
theorem c3_witness :
    (runLoop constPost constReg constTick "myevents" sampleUrl 0 0 5).2 = 0 + (5 : Nat) ∧
    (runLoop constPost constReg constTick "myevents" sampleUrl 0 0 3).2
      ≤ (runLoop constPost constReg constTick "myevents" sampleUrl 0 0 5).2 :=
  ⟨(c3_counter_once_per_tick constPost constReg constTick "myevents" sampleUrl 0 0 3 5).1,
   (c3_counter_once_per_tick constPost constReg constTick "myevents" sampleUrl 0 0 3 5).2
     (by decide)⟩

/-- C1: serialization produces a JSON array containing exactly one object
with fields `type`, `time` and `data`; `data` holds exactly one key/value
entry per distinct variable name (one formatted entry per registry entry, and
quoted keys of distinct names stay distinct because quoting is injective);
each key is the Go-quoted source name, decoding back to exactly that name;
each value is spliced verbatim after the key; and a zero-variable snapshot
yields an empty `data` object. -/
theorem c1_serialization_structure (registry : List (String × String))
    (collectionType timeString : String)
    (hnd : (registry.map Prod.fst).Nodup) :
    buildRequest collectionType timeString (registry.map formatVariable)
      = "[\n\t\t\x7b\n\t\t\t\"type\": \"" ++ collectionType
        ++ "\",\n\t\t\t\"time\": \"" ++ timeString
        ++ "\",\n\t\t\t\"data\": \x7b "
        ++ String.intercalate "," (registry.map formatVariable)
        ++ " \x7d\n\t\t\x7d\n\t\t]" ∧
    (registry.map formatVariable).length = registry.length ∧
    (∀ entry ∈ registry, ∃ key, formatVariable entry = key ++ ": " ++ entry.2
      ∧ goUnquote key = some entry.1) ∧
    (registry.map (fun entry => goQuote entry.1)).Pairwise (· ≠ ·) ∧
    (registry = [] →
      isEmptyJsonObject ("\x7b "
        ++ String.intercalate "," (registry.map formatVariable)
        ++ " \x7d") = true) := by
  refine ⟨rfl, by simp, ?_, ?_, ?_⟩
  · intro entry _
    exact ⟨goQuote entry.1, rfl, goUnquote_goQuote entry.1⟩
  · have hmap : registry.map (fun entry => goQuote entry.1)
        = (registry.map Prod.fst).map goQuote := by
      rw [List.map_map]
      rfl
    rw [hmap]
    exact hnd.map goQuote_injective
  · intro hempty
    subst hempty
    decide

/-- Witness for C1 on a concrete two-variable registry with distinct names. -/
theorem c1_witness :
    (sampleRegistry.map Prod.fst).Nodup ∧
    (sampleRegistry.map formatVariable).length = sampleRegistry.length ∧
    (sampleRegistry.map (fun entry => goQuote entry.1)).Pairwise (· ≠ ·) :=
  ⟨by decide,
   (c1_serialization_structure sampleRegistry "myevents" "Sun Feb  3 07:04:05 2013"
     (by decide)).2.1,
   (c1_serialization_structure sampleRegistry "myevents" "Sun Feb  3 07:04:05 2013"
     (by decide)).2.2.2.1⟩

/-- A rendered decimal digit is a digit character. -/
theorem decDigit_isDigit (n : Nat) : (decDigit n).isDigit = true := by
  have h : n % 10 < 10 := Nat.mod_lt _ (by norm_num)
  unfold decDigit
  revert h
  generalize n % 10 = k
  intro h
  interval_cases k <;> rfl

/-- Every in-range weekday renders as three letters. -/
theorem weekdayName_shape (w : Nat) (h : w < 7) :
    ∃ a b c : Char, (weekdayName w).data = [a, b, c]
      ∧ a.isAlpha = true ∧ b.isAlpha = true ∧ c.isAlpha = true := by
  interval_cases w <;> exact ⟨_, _, _, rfl, by decide, by decide, by decide⟩

/-- Every in-range month renders as three letters. -/
theorem monthName_shape (m : Nat) (h1 : 1 ≤ m) (h2 : m ≤ 12) :
    ∃ a b c : Char, (monthName m).data = [a, b, c]
      ∧ a.isAlpha = true ∧ b.isAlpha = true ∧ c.isAlpha = true := by
  interval_cases m <;> exact ⟨_, _, _, rfl, by decide, by decide, by decide⟩

/-- The `_2` day verb renders as a space-or-digit followed by a digit. -/
theorem dayChars_shape (d : Nat) :
    ∃ d1 d2 : Char, dayChars d = [d1, d2]
      ∧ (d1 == ' ' || d1.isDigit) = true ∧ d2.isDigit = true := by
  by_cases h : d < 10
  · exact ⟨' ', decDigit d, by simp [dayChars, h], rfl, decDigit_isDigit d⟩
  · exact ⟨decDigit (d / 10), decDigit d, by simp [dayChars, h],
      by simp [decDigit_isDigit], decDigit_isDigit d⟩

/-- C7: the rendered timestamp is deterministic — the same instant always
renders to the identical `time` string — and for every valid instant the
result has the fixed `time.ANSIC` textual shape.  The formatter takes nothing
but the instant (no locale or environment input exists in its signature, as
in Go's `time.Time.Format`). -/
theorem c7_ansic_deterministic_fixed_format (t1 t2 : GoTime)
    (heq : t1 = t2) (hw : t1.weekday < 7)
    (hm1 : 1 ≤ t1.month) (hm2 : t1.month ≤ 12) :
    formatANSIC t1 = formatANSIC t2 ∧ ansicShape (formatANSIC t1) = true := by
  subst heq
  refine ⟨rfl, ?_⟩
  obtain ⟨a, b, c, hwd, ha, hb, hc⟩ := weekdayName_shape t1.weekday hw
  obtain ⟨d, e, f, hmo, hd, he, hf⟩ := monthName_shape t1.month hm1 hm2
  obtain ⟨d1, d2, hday, hd1, hd2⟩ := dayChars_shape t1.day
  show ansicShapeChars (formatANSIC t1).data = true
  have hdata : (formatANSIC t1).data
      = (weekdayName t1.weekday).data ++ ' ' :: (monthName t1.month).data
        ++ ' ' :: dayChars t1.day ++ ' ' :: pad2 t1.hour ++ ':' :: pad2 t1.minute
        ++ ':' :: pad2 t1.second ++ ' ' :: yearChars t1.year := rfl
  rw [hdata, hwd, hmo, hday]
  simp only [pad2, yearChars, List.cons_append, List.nil_append]
  simp [ansicShapeChars, ha, hb, hc, hd, he, hf, hd1, hd2, decDigit_isDigit]

/-- Witness for C7 at the fixed sample instant. -/
theorem c7_witness :
    formatANSIC sampleTime = formatANSIC sampleTime ∧
    ansicShape (formatANSIC sampleTime) = true :=
  c7_ansic_deterministic_fixed_format sampleTime sampleTime rfl (by decide)
    (by decide) (by decide)
